import Mathlib

/-!
Verification of the response-resolution engine of the `chatbot_project`
repository against its natural-language specification.

The development is a shallow embedding of the Python source:

* `src/chatbot/chatbot.py` — the memory store (`store_user_info`,
  `get_user_info`), the pattern table (`pairs`), the engine
  (`ImprovedChat.respond`), the weighted selector
  (`custom_response_selector`) and the stylistic variation pass
  (`add_response_variation`);
* `src/advanced_integration.py` — the intent-resolution precedence of
  `AdvancedChatbot.process_message`;
* `src/build/chatbot/transformers_engine.py` — the argmax/threshold loop of
  `find_most_similar_intent`.

External effects are made explicit: the wall clock hour, the success of the
JSON persistence writes and the weather HTTP call are fields of an `Env`
record, and every random draw of the Python `random` module is a field of an
`RngOracle` record, so that properties can be stated "for every RNG outcome"
and counterexamples can name the exact outcome.  Regex matching is embedded
by a small backtracking engine over an AST that transcribes the pattern
strings of `pairs`; `re.search` semantics (leftmost position, preferred
alternative first, greedy repetition) and the anchored `re.match` are
reproduced by returning candidate matches in priority order.  Strings are
Lean `String`s; string helpers are defined here on `List Char` to keep
every definition kernel-computable.

Two defects of the committed module shape the engine's behavior and are
reflected throughout.  First, the `pairs` literal is wrapped in a stray
second `pairs = [` (lines 825–826, a syntax error as written); the entries
are read as the inner list.  Second, the helpers
`custom_response_selector`, `add_response_variation` and
`set_user_personality_preference` are defined in the body of
`class ImprovedChat`, and a class body is not an enclosing scope for the
functions defined in it, so every bare-name call to them — `respond` at
lines 400 and 431, the selector at line 533, the last table entry's
lambda — raises `NameError` at run time.  `respond`'s per-pattern handler
catches that error and skips the matched entry, so the custom matching
loop never answers (and never runs a callback); every non-empty turn is
answered by the inherited `nltk.chat.util.Chat.respond`, whose matching
is the *anchored* `pattern.match`, with the outermost handler turning its
exceptions into a fixed apology sentence.
-/

/-! ### String helpers (Python `str` operations used by the source) -/

/-- `sub.isPrefixOf`-based substring test: Python `sub in s`. -/
def containsSubCs (sub : List Char) : List Char → Bool
  | [] => sub.isEmpty
  | c :: t => sub.isPrefixOf (c :: t) || containsSubCs sub t

/-- Python `sub in s` on strings. -/
def containsSub (s sub : String) : Bool :=
  containsSubCs sub.toList s.toList

/-- Python `s.startswith(p)`. -/
def sStarts (s p : String) : Bool := p.toList.isPrefixOf s.toList

/-- Python `s.endswith(p)`. -/
def sEnds (s p : String) : Bool := p.toList.isSuffixOf s.toList

/-- Python `s.lower()` (ASCII, which covers every string in the source). -/
def lowerStr (s : String) : String := (s.toList.map Char.toLower).asString

/-- Python `s.upper()` (ASCII). -/
def upperStr (s : String) : String := (s.toList.map Char.toUpper).asString

/-- Python `s.strip()`. -/
def pyStrip (s : String) : String :=
  (((s.toList.dropWhile Char.isWhitespace).reverse.dropWhile
      Char.isWhitespace).reverse).asString

/-- Python `s.rstrip()`. -/
def pyRstrip (s : String) : String :=
  ((s.toList.reverse.dropWhile Char.isWhitespace).reverse).asString

/-- Python `s.split()` with no argument: split on whitespace runs,
dropping empty pieces.  Accumulator holds the current word reversed. -/
def pySplitAux : List Char → List Char → List String
  | [], cur => if cur.isEmpty then [] else [cur.reverse.asString]
  | c :: t, cur =>
    if c.isWhitespace then
      if cur.isEmpty then pySplitAux t [] else cur.reverse.asString :: pySplitAux t []
    else pySplitAux t (c :: cur)

/-- Python `s.split()`. -/
def pySplit (s : String) : List String := pySplitAux s.toList []

/-- Python `" ".join(ws)`. -/
def joinSp : List String → String
  | [] => ""
  | [w] => w
  | w :: t => w ++ " " ++ joinSp t

/-- Replace every occurrence of `pat` (non-empty) in `s` by `rep`,
left to right, non-overlapping: Python `s.replace(pat, rep)`.
Fuel is the length of `s`; each step consumes at least one character. -/
def replaceAllCs : ℕ → List Char → List Char → List Char → List Char
  | 0, s, _, _ => s
  | fuel + 1, s, pat, rep =>
    match s with
    | [] => []
    | c :: rest =>
      if !pat.isEmpty && pat.isPrefixOf s then
        rep ++ replaceAllCs fuel (s.drop pat.length) pat rep
      else
        c :: replaceAllCs fuel rest pat rep

/-- Python `s.replace(pat, rep)` (the source never calls it with an empty
pattern; an empty pattern is a no-op here). -/
def sReplace (s pat rep : String) : String :=
  (replaceAllCs s.toList.length s.toList pat.toList rep.toList).asString

/-- Index of the first occurrence of `c`, if any. -/
def findCharIdx : List Char → Char → Option ℕ
  | [], _ => none
  | x :: t, c =>
    if x = c then some 0
    else (findCharIdx t c).map (· + 1)

/-! ### Memory store (`user_memory`, `store_user_info`, `get_user_info`)

`user_memory` is a JSON-backed dict `user_id -> {key -> value}`.  Python
dicts are embedded as association lists with unique keys: update replaces
the first binding in place, insertion appends. -/

/-- Dict update: replace the first binding of `k` in place, else append. -/
def alistSet {α : Type} : List (String × α) → String → α → List (String × α)
  | [], k, v => [(k, v)]
  | (k', v') :: t, k, v =>
    if k' = k then (k, v) :: t else (k', v') :: alistSet t k v

/-- Dict lookup: first binding wins. -/
def alookup {α : Type} : List (String × α) → String → Option α
  | [], _ => none
  | (k', v') :: t, k => if k' = k then some v' else alookup t k

/-- The in-memory shape of `user_memory`. -/
abbrev Memory : Type := List (String × List (String × String))

/-- `user_memory.get(user_id, {})`. -/
def memLookup (m : Memory) (uid : String) : Option (List (String × String)) :=
  alookup m uid

/-- `store_user_info(user_id, key, value)` from `src/chatbot/chatbot.py`:
validates that `user_id` and `key` are truthy strings (returning `False`
without touching memory otherwise), creates the user record lazily, writes
the value in memory, and returns the result of `save_memory()` — the
persistence outcome `persistOk` is an input since it is file I/O.  The
in-memory write is *not* rolled back when persistence fails. -/
def storeUserInfo (persistOk : Bool) (m : Memory) (uid key value : String) :
    Memory × Bool :=
  if uid = "" then (m, false)
  else if key = "" then (m, false)
  else
    let rec0 := (memLookup m uid).getD []
    (alistSet m uid (alistSet rec0 key value), persistOk)

/-- `get_user_info(user_id, key, default)` from `src/chatbot/chatbot.py`:
returns `default` on invalid identifiers, otherwise
`user_memory.get(user_id, {}).get(key, default)`; never raises. -/
def getUserInfo (m : Memory) (uid key : String) (dflt : Option String) :
    Option String :=
  if uid = "" then dflt
  else if key = "" then dflt
  else
    match memLookup m uid with
    | none => dflt
    | some r =>
      match alookup r key with
      | none => dflt
      | some v => some v

/-! ### External effects and randomness -/

/-- The effects outside the engine: the wall-clock hour
(`datetime.now().hour`), the success of the two JSON persistence writes
(`save_memory`, `save_name`) and the weather HTTP service
(`get_weather`, whose network I/O is out of the core). -/
structure Env where
  hour : ℕ
  memPersistOk : Bool
  configPersistOk : Bool
  getWeather : String → String

/-- One outcome of every `random` draw that a single `respond` turn can
make.  `custom_response_selector` draws a jitter per remaining candidate, a
point in the cumulative-weight range (`random.uniform(0, total)`, recorded
as the fraction `drawFrac` of the total) and a fallback `random.choice`
index; `add_response_variation` draws five independent probability gates
and the choices used inside them; the NLTK parent `respond` draws one
`random.choice` index. -/
structure RngOracle where
  jitter : ℕ → ℚ
  drawFrac : ℚ
  choiceFallback : ℕ
  gGreeting : Bool
  gName : Bool
  gFiller : Bool
  fillerIdx : ℕ
  gThinking : Bool
  thinkIdx : ℕ
  gEmph : Bool
  emphWord : ℕ → Bool
  emphStyle : ℕ → ℕ
  gEmoji : Bool
  emojiIdx : ℕ
  parentChoice : ℕ

/-- A Python value returned by `respond` or by a callback: the source
returns strings, but `save_name_and_update` returns the boolean `True`. -/
inductive PyVal where
  | pstr (s : String)
  | pbool (b : Bool)
deriving DecidableEq, Repr

/-- Python truthiness of a value. -/
def PyVal.truthy : PyVal → Bool
  | .pstr s => !(s = "")
  | .pbool b => b

/-- Python truthiness of an optional value (`None` is falsy). -/
def pyTruthy : Option PyVal → Bool
  | none => false
  | some v => v.truthy

/-! ### Weighted response selection
(`custom_response_selector`, `add_response_variation`) -/

/-- The time-of-day bucket of `custom_response_selector`:
5–11 `"morning"`, 12–17 `"afternoon"`, 18–21 `"evening"`, else `"night"`. -/
def timeOfDay (h : ℕ) : String :=
  if 5 ≤ h ∧ h < 12 then "morning"
  else if 12 ≤ h ∧ h < 18 then "afternoon"
  else if 18 ≤ h ∧ h < 22 then "evening"
  else "night"

/-- The deterministic part of a candidate's weight: base 1.0, +0.5 on a
time-of-day keyword, +0.3 when shorter than 10 words, +0.2 on an emoji. -/
def respWeight (tod : String) (r : String) : ℚ :=
  let w : ℚ := 1
  let w :=
    if tod = "morning" ∧
        (["morning", "day", "today"].any fun s => containsSub (lowerStr r) s)
      then w + 1/2
    else if tod = "afternoon" ∧ containsSub (lowerStr r) "afternoon" then w + 1/2
    else if tod = "evening" ∧
        (["evening", "tonight"].any fun s => containsSub (lowerStr r) s)
      then w + 1/2
    else if tod = "night" ∧
        (["night", "late"].any fun s => containsSub (lowerStr r) s)
      then w + 1/2
    else w
  let w := if (pySplit r).length < 10 then w + 3/10 else w
  let w :=
    if (["😊", "👍", "🌟", "✨", "👋"].any fun e => containsSub r e)
      then w + 1/5
    else w
  w

/-- The weighting loop: one `random.uniform(-0.1, 0.1)` jitter per
candidate, in order. -/
def weightList (tod : String) (jit : ℕ → ℚ) : List String → ℕ → List (String × ℚ)
  | [], _ => []
  | r :: t, i => (r, respWeight tod r + jit i) :: weightList tod jit t (i + 1)

/-- The cumulative-weight scan: pick the first candidate whose cumulative
weight reaches the drawn value. -/
def cumulPick : List (String × ℚ) → ℚ → ℚ → Option String
  | [], _, _ => none
  | (r, w) :: rest, d, acc =>
    if d ≤ acc + w then some r else cumulPick rest d (acc + w)

/-- Steps 2–4 of `custom_response_selector` (for two or more candidates):
drop `previous` unless that empties the pool, weight the remaining
candidates, and draw.  `random.uniform(0, total)` is `drawFrac * total`.
The source's `for … else` fallback (`random.choice(available_responses)`)
is the `none` branch of the scan. -/
def availableOf (responses : List String) (previous : Option String) :
    List String :=
  let avail0 :=
    match previous with
    | none => responses
    | some p => responses.filter (fun r => !(r = p))
  if avail0.isEmpty then responses else avail0

def weightedPick (env : Env) (rng : RngOracle) (responses : List String)
    (previous : Option String) : String :=
  let tod := timeOfDay env.hour
  let available := availableOf responses previous
  let weighted := weightList tod rng.jitter available 0
  let total := (weighted.map (·.2)).sum
  match cumulPick weighted (rng.drawFrac * total) 0 with
  | some r => r
  | none => available.getD (rng.choiceFallback % available.length) ""

/-- The greeting prefixes that block the time-of-day greeting. -/
def greetingPatterns : List String :=
  ["hi", "hello", "hey", "good morning", "good afternoon", "good evening"]

/-- The filler prefixes of `add_response_variation`. -/
def fillerWords : List String :=
  ["Well, ", "Hmm, ", "Let's see, ", "Actually, ", "You know, "]

/-- The 10% filler step of `add_response_variation`.  On an empty string
`response[0]` raises `IndexError`; that exception is the `.error` case. -/
def fillerStep (rng : RngOracle) (r : String) : Except Unit String :=
  if rng.gFiller && !(fillerWords.any fun f => sStarts r f) then
    match r.toList with
    | [] => .error ()
    | c :: cs =>
      .ok ((fillerWords.getD (rng.fillerIdx % 5) "") ++
            (Char.toLower c).toString ++ cs.asString)
  else .ok r

/-- One emphasis style chosen by `random.choice` among three lambdas. -/
def applyStyle (style : ℕ) (w : String) : String :=
  if style = 0 then upperStr w
  else if style = 1 then "*" ++ w ++ "*"
  else "_" ++ w ++ "_"

/-- The emphasis pass: split into words, emphasize words longer than five
characters that win their 30% draw, rejoin with single spaces. -/
def emphasizeWords (rng : RngOracle) : List String → ℕ → List String
  | [], _ => []
  | w :: t, i =>
    (if 5 < w.toList.length ∧ rng.emphWord i then
        applyStyle (rng.emphStyle i % 3) w
      else w) :: emphasizeWords rng t (i + 1)

/-- The 20% time-of-day greeting step of `add_response_variation`:
prepend the greeting (with the stored user name after an `rstrip`) unless
the response already opens with a greeting word. -/
def greetingStep (rng : RngOracle) (userName : Option String)
    (tod : String) (r0 : String) : String :=
  if rng.gGreeting then
    let tg :=
      if tod = "morning" then "Good morning! "
      else if tod = "afternoon" then "Good afternoon! "
      else if tod = "evening" then "Good evening! "
      else if tod = "night" then "Hi there! "
      else ""
    let tg :=
      match userName with
      | some n => if !(n = "") && rng.gName then pyRstrip tg ++ ", " ++ n ++ "! " else tg
      | none => tg
    if !(greetingPatterns.any fun g => sStarts (lowerStr r0) g) then tg ++ r0 else r0
  else r0

/-- `add_response_variation(response, time_of_day, user_id)` (lines
537–601 of `src/chatbot/chatbot.py`, defined in the body of
`class ImprovedChat`): optionally prepend a time-of-day greeting (with
the stored user name), prepend a filler (lowering the old first character —
this raises on an empty string), replace `"."` by a thinking interjection,
emphasize long words, and append an emoji when there is no `"?"` and no
trailing `"!"`.  This embeds the function object itself; the only call
site, line 533 of `custom_response_selector`, refers to it by a bare name
that does not resolve (a class body is not a scope its functions can see),
so no execution ever reaches this body. -/
def addResponseVariation (rng : RngOracle) (mem : Memory) (uid : String)
    (tod : String) (r0 : String) : Except Unit String :=
  let userName := if uid = "" then none else getUserInfo mem uid "name" none
  match fillerStep rng (greetingStep rng userName tod r0) with
  | .error e => .error e
  | .ok r2 =>
    let r3 :=
      if rng.gThinking then
        sReplace r2 "."
          ("... " ++ (["hmm", "uh", "um", "let me think"].getD (rng.thinkIdx % 4) "") ++ ".")
      else r2
    let r4 :=
      if rng.gEmph then joinSp (emphasizeWords rng (pySplit r3) 0) else r3
    let r5 :=
      if rng.gEmoji && !containsSub r4 "?" && !sEnds r4 "!" then
        r4 ++ " " ++ (["😊", "👍", "✨", "🌟", "👋"].getD (rng.emojiIdx % 5) "")
      else r4
    .ok r5

/-- `custom_response_selector(responses, previous_response, user_id)`
(lines 453–535 of `src/chatbot/chatbot.py`, defined in the body of
`class ImprovedChat`): a fixed string on an empty pool, the unique
candidate unconditionally when there is exactly one — both returned before
anything can fail.  With two or more candidates, lines 472–530 compute the
weighted draw (`weightedPick`, a pure value, here bound and discarded just
as Python discards it), and line 533 then calls `add_response_variation`
by a bare name; that function lives in the same class body, which is not
an enclosing scope here, so the call raises `NameError` (`.error`) for
every RNG outcome and the function never returns on this path.  The body
contains no exception handler, so the error propagates to the caller.
(The personality-preference weighting snippet at lines 624–636 of the
source sits after a `return` in another function and is dead code.) -/
def customResponseSelector (env : Env) (rng : RngOracle) (_mem : Memory)
    (_uid : String) (responses : List String) (previous : Option String) :
    Except Unit String :=
  match responses with
  | [] => .ok "I'm not sure what to say."
  | [r] => .ok r
  | _ =>
    let _draw := weightedPick env rng responses previous
    .error ()

/-! ### Regex engine

A small backtracking engine for the constructs used by the patterns of
`pairs`: literals, the classes `.`, `\w`, `\s`, `[\w\s]`, alternation,
`(?:…)?`, capturing groups, `(.*)` and `([\w\s]+)`.  `reMatch` returns the
candidate matches at a position in the priority order of Python `re`
(earlier alternative first, greedy repetition longest first); `reSearch`
scans positions left to right and keeps the first position that matches,
with its highest-priority match — exactly `pattern.search`.  The table is
compiled with `re.IGNORECASE`, so literals compare lowercased. -/

inductive RE where
  | eps
  | lit (c : Char)
  | cls (p : Char → Bool)
  | seq (a b : RE)
  | alt (a b : RE)
  | opt (a : RE)
  | dotStar
  | clsPlus (p : Char → Bool)
  | grp (n : ℕ) (a : RE)

/-- The literal regex for a string. -/
def rstr (s : String) : RE := (s.toList.map RE.lit).foldr RE.seq RE.eps

/-- Sequencing of a list of regexes. -/
def rcat (l : List RE) : RE := l.foldr RE.seq RE.eps

/-- Alternation of a list of regexes, leftmost preferred. -/
def raltL : List RE → RE
  | [] => RE.eps
  | [r] => r
  | r :: t => RE.alt r (raltL t)

/-- Python `\w` (ASCII range). -/
def isWordChar (c : Char) : Bool := c.isAlphanum || c = '_'

/-- Python `[\w\s]`. -/
def isWordOrSpace (c : Char) : Bool := isWordChar c || c.isWhitespace

/-- `n, n-1, …, 0`. -/
def descList : ℕ → List ℕ
  | 0 => [0]
  | n + 1 => (n + 1) :: descList n

/-- Candidate matches of `re` against `s`, each as
(remaining input, captures in completion order), in priority order. -/
def reMatch : RE → List Char → List (List Char × List (ℕ × String))
  | .eps, s => [(s, [])]
  | .lit c, s =>
    match s with
    | [] => []
    | x :: t => if x.toLower = c.toLower then [(t, [])] else []
  | .cls p, s =>
    match s with
    | [] => []
    | x :: t => if p x then [(t, [])] else []
  | .seq a b, s =>
    (reMatch a s).flatMap fun pr =>
      (reMatch b pr.1).map fun qr => (qr.1, pr.2 ++ qr.2)
  | .alt a b, s => reMatch a s ++ reMatch b s
  | .opt a, s => reMatch a s ++ [(s, [])]
  | .dotStar, s =>
    let m := (s.takeWhile fun c => !(c = '\n')).length
    (descList m).map fun k => (s.drop k, [])
  | .clsPlus p, s =>
    let m := (s.takeWhile p).length
    ((descList m).filter fun k => 0 < k).map fun k => (s.drop k, [])
  | .grp n a, s =>
    (reMatch a s).map fun pr =>
      (pr.1, pr.2 ++ [(n, (s.take (s.length - pr.1.length)).asString)])

/-- A Python match object: the whole matched text (`group(0)`) and
`groups()` — one optional string per capturing group of the pattern. -/
structure MatchRes where
  whole : String
  groups : List (Option String)
deriving DecidableEq, Repr

/-- Build `groups()` out of the capture list: the last completed capture of
a group wins; a group that never participated is `None`. -/
def capsToGroups (caps : List (ℕ × String)) (ngroups : ℕ) : List (Option String) :=
  (List.range ngroups).map fun i => (caps.reverse.find? fun p => p.1 = i + 1).map (·.2)

/-- `pattern.search(input)`: positions left to right, first match in
priority order. -/
def reSearchFrom (re : RE) (ngroups : ℕ) : List Char → Option MatchRes
  | [] =>
    match (reMatch re []).head? with
    | some (_, caps) => some ⟨"", capsToGroups caps ngroups⟩
    | none => none
  | c :: t =>
    match (reMatch re (c :: t)).head? with
    | some (rest, caps) =>
      some ⟨((c :: t).take ((c :: t).length - rest.length)).asString,
            capsToGroups caps ngroups⟩
    | none => reSearchFrom re ngroups t

/-- Search a compiled pattern in a string. -/
def reSearch (re : RE) (ngroups : ℕ) (input : String) : Option MatchRes :=
  reSearchFrom re ngroups input.toList

/-- `pattern.match(input)`: the anchored variant used by the inherited
`nltk.chat.util.Chat.respond` — the match must start at position 0 (it may
end anywhere), first candidate in priority order. -/
def reMatchTop (re : RE) (ngroups : ℕ) (input : String) : Option MatchRes :=
  match (reMatch re input.toList).head? with
  | some (rest, caps) =>
    some ⟨(input.toList.take (input.toList.length - rest.length)).asString,
          capsToGroups caps ngroups⟩
  | none => none

/-! ### NLTK `Chat` machinery: reflections, `_substitute`, `_wildcards` -/

/-- The `nltk.chat.util.reflections` table, as (key, replacement) pairs in
the order produced by `sorted(self._reflections, key=len, reverse=True)`
(Python's stable sort: decreasing length, dict insertion order on ties),
which is the alternation order of the compiled reflection regex. -/
def reflectionPairs : List (String × String) :=
  [("you were", "I was"), ("you are", "I am"), ("you've", "I have"),
   ("you'll", "I will"), ("i was", "you were"), ("yours", "mine"),
   ("i am", "you are"), ("i've", "you have"), ("i'll", "you will"),
   ("your", "my"), ("i'm", "you are"), ("i'd", "you would"),
   ("you", "me"), ("my", "your"), ("me", "you"), ("i", "you")]

/-- Does some reflection key match at this position with a word boundary
after it?  Returns the key's replacement and the remaining input. -/
def tryReflKeys (cs : List Char) : List (String × String) → Option (String × Char × List Char)
  | [] => none
  | (k, repl) :: rest =>
    let kl := k.toList
    if kl.isPrefixOf cs then
      let after := cs.drop kl.length
      if (match after with
          | [] => true
          | a :: _ => !isWordChar a) then
        some (repl, kl.getLastD 'x', after)
      else tryReflKeys cs rest
    else tryReflKeys cs rest

/-- The scan of `self._regex.sub` over the lowered string: at a position
preceded by a non-word character (every key starts and ends with a word
character, so `\b` holds exactly there), try the alternatives in order;
on a hit emit the replacement and continue after the matched key. -/
def reflectAux : ℕ → List Char → Bool → String
  | 0, _, _ => ""
  | _, [], _ => ""
  | fuel + 1, c :: t, prevWord =>
    if prevWord then c.toString ++ reflectAux fuel t (isWordChar c)
    else
      match tryReflKeys (c :: t) reflectionPairs with
      | some (repl, lastKeyChar, after) =>
        repl ++ reflectAux fuel after (isWordChar lastKeyChar)
      | none => c.toString ++ reflectAux fuel t (isWordChar c)

/-- NLTK `Chat._substitute`: lowercase, then apply the reflection regex. -/
def reflect (s : String) : String :=
  let cs := (lowerStr s).toList
  reflectAux cs.length cs false

/-- `match.group(num)` on the embedded match object: `0` is the whole
match, out-of-range raises `IndexError` (`.error`). -/
def mGroup (m : MatchRes) (n : ℕ) : Except Unit (Option String)  :=
  if n = 0 then .ok (some m.whole)
  else
    match m.groups.get? (n - 1) with
    | some v => .ok v
    | none => .error ()

/-- NLTK `Chat._wildcards`: repeatedly find `"%"`, parse the single next
character as a group number (`int` raising `ValueError` otherwise, and on a
trailing `"%"`), substitute the reflected group text (an unmatched group is
`None`, whose `.lower()` raises).  The scan restarts from the front after
each substitution; an inserted `"%"` is rescanned, which in Python can loop
forever — fuel exhaustion stands in for that divergence. -/
def wildcards : ℕ → MatchRes → String → Except Unit String
  | 0, _, resp =>
    match findCharIdx resp.toList '%' with
    | none => .ok resp
    | some _ => .error ()
  | fuel' + 1, m, resp =>
    match findCharIdx resp.toList '%' with
    | none => .ok resp
    | some pos =>
      match resp.toList.get? (pos + 1) with
      | none => .error ()
      | some c =>
        if c.isDigit then
          match mGroup m (c.toNat - '0'.toNat) with
          | .error _ => .error ()
          | .ok none => .error ()
          | .ok (some g) =>
            wildcards fuel' m
              ((resp.toList.take pos).asString ++ reflect g ++
                (resp.toList.drop (pos + 2)).asString)
        else .error ()

/-- Fuel for `_wildcards`; no template of the table needs more than its
group count of substitutions. -/
def wildcardsFuel : ℕ := 1000

/-! ### The engine: `ImprovedChat.respond` -/

/-- A pattern table entry: the pattern's source string (the key of
`self.previous_responses`), the compiled pattern as an AST with its group
count (searched by the custom loop, anchored-matched by the NLTK parent),
and the response spec — a plain template list, or a (templates, callback)
tuple.  A callback receives `match.groups()`, may read the environment and
mutate the user memory and the global bot name, and either raises
(`.error`), returns `None` (`.ok none`) or returns a value.  (No reachable
path of the engine ever invokes a callback: the matching loop skips every
matched entry via `NameError`, and the NLTK parent cannot use a
`(templates, callback)` tuple.) -/
inductive RespSpec where
  | templates (ts : List String)
  | withCallback (ts : List String)
      (cb : List (Option String) → Env → Memory → String →
            (Memory × String × Except Unit (Option PyVal)))

structure Entry where
  pid : String
  re : RE
  ngroups : ℕ
  resp : RespSpec

/-- The template list carried by a response spec (for stating table
facts). -/
def entryTemplates : RespSpec → List String
  | .templates ts => ts
  | .withCallback ts _ => ts

/-- The mutable state of an `ImprovedChat` turn: the (destructively
updated) pattern table, `self.previous_responses`, the user memory, the
instance bot name `self.bot_name`, the current user id, and the
module-level `bot_name` global that `save_name_and_update` reassigns. -/
structure ChatState where
  pairsTable : List Entry
  previousResponses : List (String × String)
  memory : Memory
  botName : String
  userId : String
  globalBotName : String

/-- The keys of the `re.findall(r'\x7bmemory:([^}]+)\x7d', response)` scan:
find `"{memory:"`, take the non-empty run up to `"}"`; continue after the
match, or one character later when the position does not match. -/
def extractMemKeysAux : ℕ → List Char → List String
  | 0, _ => []
  | _, [] => []
  | fuel + 1, c :: t =>
    let cs := c :: t
    if "\x7bmemory:".toList.isPrefixOf cs then
      let rest := cs.drop 8
      let key := rest.takeWhile fun x => !(x = '\x7d')
      if key.isEmpty then extractMemKeysAux fuel t
      else
        match rest.drop key.length with
        | '\x7d' :: after => key.asString :: extractMemKeysAux fuel after
        | _ => extractMemKeysAux fuel t
    else extractMemKeysAux fuel t

def extractMemKeys (s : String) : List String :=
  extractMemKeysAux s.toList.length s.toList

/-- The memory-placeholder pass of the pre-formatting loop: Python
iterates `for key in keys`, each time overwriting the stored template with
`response.replace(...)` computed from the *original* `response`, so only
the last key's substitution survives.  The value is
`get_user_info(self.current_user_id, key) or "unknown"`. -/
def memSubstTemplate (mem : Memory) (uid : String) (t : String) : String :=
  match (extractMemKeys t).getLast? with
  | none => t
  | some k =>
    let v :=
      match getUserInfo mem uid k none with
      | some s => if s = "" then "unknown" else s
      | none => "unknown"
    sReplace t ("\x7bmemory:" ++ k ++ "\x7d") v

/-- One template of the pre-formatting loop (lines 374–385 of
`src/chatbot/chatbot.py`): `{bot_name}` is formatted with `self.bot_name`,
else `{memory:…}` placeholders are substituted; the result replaces the
template *in the stored table*. -/
def preFmtTemplate (mem : Memory) (uid bn : String) (t : String) : String :=
  if containsSub t "\x7bbot_name\x7d" then sReplace t "\x7bbot_name\x7d" bn
  else if containsSub t "\x7bmemory:" then memSubstTemplate mem uid t
  else t

/-- The pre-formatting loop visits only entries whose response is a `list`;
`(templates, callback)` tuples are skipped entirely. -/
def preFormatEntry (mem : Memory) (uid bn : String) (e : Entry) : Entry :=
  match e.resp with
  | .templates ts =>
    { e with resp := .templates (ts.map (preFmtTemplate mem uid bn)) }
  | .withCallback _ _ => e

/-- The matching loop of `ImprovedChat.respond` (lines 388–444): each
entry's pattern is searched (line 390), and on a match both the
`(templates, callback)` branch and the plain-list branch immediately call
`custom_response_selector` by a bare name (lines 400 and 431).  That
function is defined in the body of `class ImprovedChat`, which is not an
enclosing scope for the method, so the call raises `NameError` before the
selector, the callback or the wildcard substitution can run; the
per-pattern `except` at line 442 logs and continues.  Every entry is
therefore skipped — matched or not — with `previous_responses`, the user
memory and the global bot name untouched, and the loop always falls
through (result `none`) to `super().respond`. -/
def matchLoop (env : Env) (rng : RngOracle) (uid input : String) :
    List Entry → List (String × String) → Memory → String →
    (Option PyVal × List (String × String) × Memory × String)
  | [], pm, mem, gbn => (none, pm, mem, gbn)
  | e :: rest, pm, mem, gbn =>
    match reSearch e.re e.ngroups input with
    | none => matchLoop env rng uid input rest pm mem gbn
    | some _ => matchLoop env rng uid input rest pm mem gbn

/-- The two ending fixes of the NLTK parent: a trailing `"?."` becomes
`"."`, then a trailing `"??"` becomes `"?"`. -/
def fixEnding (r : String) : String :=
  let r := if sEnds r "?." then (r.toList.dropLast.dropLast).asString ++ "." else r
  if sEnds r "??" then (r.toList.dropLast.dropLast).asString ++ "?" else r

/-- `nltk.chat.util.Chat.respond`, which answers every non-empty turn once
the custom loop has fallen through: first entry whose pattern matches *at
the start of the input* (`pattern.match`, anchored — unlike the custom
loop's `search`); `random.choice` over the response object — on a
`(templates, callback)` tuple either component is unusable by `_wildcards`
(`AttributeError`, hence `.error`), on an empty template list
`random.choice` raises; then wildcard substitution and the ending fixes.
`.ok none` is Python `None` (no entry matched). -/
def nltkRespond (rng : RngOracle) (input : String) :
    List Entry → Except Unit (Option PyVal)
  | [] => .ok none
  | e :: rest =>
    match reMatchTop e.re e.ngroups input with
    | none => nltkRespond rng input rest
    | some m =>
      match e.resp with
      | .withCallback _ _ => .error ()
      | .templates ts =>
        if ts.isEmpty then .error ()
        else
          match wildcards wildcardsFuel m (ts.getD (rng.parentChoice % ts.length) "") with
          | .error e => .error e
          | .ok out => .ok (some (.pstr (fixEnding out)))

/-- `ImprovedChat.respond(user_input)` (lines 367–451 of
`src/chatbot/chatbot.py`): the empty-input guard, the destructive template
pre-formatting pass (whose names all resolve and which therefore does
run), the matching loop (which always falls through, every matched entry
skipped via `NameError`), the NLTK fallthrough that actually answers, and
the outermost `except` turning any leftover exception into a fixed
sentence.  Returns the Python return value and the state after the turn
(the stored table keeps the pre-formatted templates). -/
def respond (env : Env) (rng : RngOracle) (st : ChatState) (input : String) :
    Option PyVal × ChatState :=
  if input = "" then
    (some (.pstr "You didn't say anything. How can I help you?"), st)
  else
    match matchLoop env rng st.userId input
        (st.pairsTable.map (preFormatEntry st.memory st.userId st.botName))
        st.previousResponses st.memory st.globalBotName with
    | (some v, pm, mem, gbn) =>
      (some v,
       { st with
           pairsTable :=
             st.pairsTable.map (preFormatEntry st.memory st.userId st.botName),
           previousResponses := pm, memory := mem, globalBotName := gbn })
    | (none, pm, mem, gbn) =>
      match nltkRespond rng input
          (st.pairsTable.map (preFormatEntry st.memory st.userId st.botName)) with
      | .ok v =>
        (v,
         { st with
             pairsTable :=
               st.pairsTable.map (preFormatEntry st.memory st.userId st.botName),
             previousResponses := pm, memory := mem, globalBotName := gbn })
      | .error _ =>
        (some (.pstr "I'm having trouble understanding right now. Could you try rephrasing that?"),
         { st with
             pairsTable :=
               st.pairsTable.map (preFormatEntry st.memory st.userId st.botName),
             previousResponses := pm, memory := mem, globalBotName := gbn })

/-! ### The concrete callbacks of `src/chatbot/chatbot.py` -/

/-- `store_name_callback`: store `groups[0].strip()` as the name of
`"default_user"`, always returning `None` so the template answers. -/
def storeNameCallback (groups : List (Option String)) (env : Env)
    (mem : Memory) (gbn : String) : Memory × String × Except Unit (Option PyVal) :=
  match groups with
  | (some s) :: _ =>
    if s = "" then (mem, gbn, .ok none)
    else
      let name := pyStrip s
      if name = "" then (mem, gbn, .ok none)
      else ((storeUserInfo env.memPersistOk mem "default_user" "name" name).1, gbn, .ok none)
  | _ => (mem, gbn, .ok none)

/-- `store_favorite_callback`: store `favorite_<category>`; a `None` group
would raise `AttributeError`, which its own handler turns into `None`. -/
def storeFavoriteCallback (groups : List (Option String)) (env : Env)
    (mem : Memory) (gbn : String) : Memory × String × Except Unit (Option PyVal) :=
  match groups with
  | (some a) :: (some b) :: _ =>
    let category := pyStrip a
    let item := pyStrip b
    if category = "" ∨ item = "" then (mem, gbn, .ok none)
    else
      ((storeUserInfo env.memPersistOk mem "default_user"
          ("favorite_" ++ category) item).1, gbn, .ok none)
  | _ => (mem, gbn, .ok none)

/-- `get_favorite_callback`: answer from memory, returning a final string
in every case. -/
def getFavoriteCallback (groups : List (Option String)) (_env : Env)
    (mem : Memory) (gbn : String) : Memory × String × Except Unit (Option PyVal) :=
  match groups with
  | (some s) :: _ =>
    if s = "" then
      (mem, gbn, .ok (some (.pstr "I need to know what favorite thing you're asking about.")))
    else
      let category := pyStrip s
      if category = "" then
        (mem, gbn, .ok (some (.pstr "Please specify which favorite thing you're asking about.")))
      else
        match getUserInfo mem "default_user" ("favorite_" ++ category) none with
        | some fav =>
          if fav = "" then
            (mem, gbn,
             .ok (some (.pstr ("I don't know your favorite " ++ category ++ " yet. What is it?"))))
          else
            (mem, gbn, .ok (some (.pstr ("Your favorite " ++ category ++ " is " ++ fav ++ "!"))))
        | none =>
          (mem, gbn,
           .ok (some (.pstr ("I don't know your favorite " ++ category ++ " yet. What is it?"))))
  | _ =>
    (mem, gbn, .ok (some (.pstr "I need to know what favorite thing you're asking about.")))

/-- `save_name_and_update` (via the `lambda groups: …` of the table): on a
successful `save_name` it reassigns the module-level `bot_name` and returns
the *boolean* `True` (its docstring: "bool: True if successful, None
otherwise"); otherwise it returns `None`. -/
def saveNameAndUpdate (groups : List (Option String)) (env : Env)
    (mem : Memory) (gbn : String) : Memory × String × Except Unit (Option PyVal) :=
  match groups with
  | (some s) :: _ =>
    if s = "" then (mem, gbn, .ok none)
    else
      let newName := pyStrip s
      if newName = "" then (mem, gbn, .ok none)
      else if env.configPersistOk then (mem, newName, .ok (some (.pbool true)))
      else (mem, gbn, .ok none)
  | _ => (mem, gbn, .ok none)

/-- `weather_callback`: validate the city and return the (external)
`get_weather` text. -/
def weatherCallback (groups : List (Option String)) (env : Env)
    (mem : Memory) (gbn : String) : Memory × String × Except Unit (Option PyVal) :=
  match groups with
  | (some s) :: _ =>
    if s = "" then (mem, gbn, .ok (some (.pstr "I need a city name to check the weather.")))
    else
      let city := pyStrip s
      if city = "" then (mem, gbn, .ok (some (.pstr "Please provide a valid city name.")))
      else (mem, gbn, .ok (some (.pstr (env.getWeather city))))
  | _ => (mem, gbn, .ok (some (.pstr "I need a city name to check the weather.")))

/-- The `lambda groups: set_user_personality_preference("default_user",
groups[0]) if groups else None` of the last table entry.  With an empty
`groups` tuple the conditional short-circuits to `None` without calling
anything.  With a non-empty `groups` the lambda calls
`set_user_personality_preference` by a bare name; that helper is defined
in the body of `class ImprovedChat` and does not exist at module level, so
the call raises `NameError` (`.error`) and no preference is ever stored.
(The entry also sits after the catch-all, and the engine never invokes
callbacks at all, so the lambda is doubly dead.) -/
def setPersonalityCallback (groups : List (Option String)) (_env : Env)
    (mem : Memory) (gbn : String) : Memory × String × Except Unit (Option PyVal) :=
  match groups with
  | [] => (mem, gbn, .ok none)
  | _ :: _ => (mem, gbn, .error ())

/-! ### The pattern table (`pairs`, lines 825–968 of `src/chatbot/chatbot.py`)

Each regex of the table transcribed to the engine's AST.  The source wraps
the list in a stray second `pairs = [` (a syntax error as written); the
entries below are the inner list, in source order — note that the
personality-setting entry stands *after* the `(.*)` catch-all. -/

def reMyNameIs : RE := rcat [rstr "my name is ", RE.grp 1 RE.dotStar]

def reMorningDay : RE :=
  RE.alt (rcat [RE.opt (rstr "good "), rstr "morning"])
         (rcat [RE.opt (rstr "good "), rstr "day"])

def reAfternoon : RE := rcat [RE.opt (rstr "good "), rstr "afternoon"]

def reEvening : RE := rcat [RE.opt (rstr "good "), rstr "evening"]

def reYourName : RE :=
  rcat [RE.alt (rcat [rstr "what", RE.alt (rstr "'s") (rstr " is"), rstr " your name"])
               (rstr "who are you"),
        RE.opt (RE.lit '?')]

def reHowAreYou : RE := rcat [rstr "how are you", RE.opt (RE.lit '?')]

def reWhatsMyName : RE :=
  rcat [rstr "what", RE.alt (rstr "'s") (rstr " is"), rstr " my name", RE.opt (RE.lit '?')]

def favCats : RE :=
  raltL (["color", "food", "movie", "book", "song", "animal"].map rstr)

def reMyFavoriteIs : RE :=
  rcat [rstr "my favorite ", RE.grp 1 favCats, rstr " is ", RE.grp 2 RE.dotStar]

def reWhatsMyFavorite : RE :=
  rcat [rstr "what", RE.alt (rstr "'s") (rstr " is"), rstr " my favorite ",
        RE.grp 1 favCats, RE.opt (RE.lit '?')]

def reRememberMe : RE := rcat [rstr "do you remember me", RE.opt (RE.lit '?')]

def reCallYou : RE :=
  rcat [RE.alt (rstr "call") (rstr "name"), rstr " you ", RE.grp 1 RE.dotStar]

def reHowGotName : RE := rcat [rstr "how did you get your name", RE.opt (RE.lit '?')]

/-- `"(?i){bot_name},? (.*)"` after `__init__` formats it with the escaped
bot name (escaping is the identity on a literal transcription). -/
def reBotAddress (bn : String) : RE :=
  rcat [rstr bn, RE.opt (RE.lit ','), RE.lit ' ', RE.grp 1 RE.dotStar]

def reWeatherIn : RE :=
  rcat [RE.opt (rcat [rstr "what", RE.alt (rstr "'s") (rstr " is"), rstr " the "]),
        rstr "weather", RE.opt (rstr " like"), rstr " in ",
        RE.grp 1 (RE.clsPlus isWordOrSpace), RE.opt (RE.lit '?')]

def reTemperatureIn : RE :=
  rcat [RE.opt (rcat [rstr "what", RE.alt (rstr "'s") (rstr " is"), rstr " the "]),
        rstr "temperature", RE.opt (rstr " like"), rstr " in ",
        RE.grp 1 (RE.clsPlus isWordOrSpace), RE.opt (RE.lit '?')]

def reWeatherAt : RE :=
  rcat [RE.opt (rcat [rstr "how", RE.alt (rstr "'s") (rstr " is"), rstr " the "]),
        rstr "weather", RE.opt (rstr " like"), RE.lit ' ',
        RE.alt (rstr "in") (rstr "at"), RE.lit ' ',
        RE.grp 1 (RE.clsPlus isWordOrSpace), RE.opt (RE.lit '?')]

def reHelp : RE :=
  rcat [raltL [rstr "help", rstr "what can you do", rstr "your abilities"],
        RE.opt (RE.lit '?')]

def reQuit : RE := raltL [rstr "quit", rstr "exit", rstr "bye", rstr "goodbye"]

def reCatchAll : RE := RE.grp 1 RE.dotStar

def rePersonality : RE :=
  rcat [raltL [rstr "set", rstr "change", rstr "make"], RE.lit ' ',
        RE.alt (rstr "your") (rstr "the"), RE.lit ' ',
        raltL [rstr "personality", rstr "tone", rstr "style"], RE.lit ' ',
        RE.opt (rstr "to "),
        RE.grp 1 (raltL (["formal", "casual", "humorous", "friendly",
                          "professional"].map rstr))]

/-- The table, as `ImprovedChat.__init__` leaves it for the bot name `bn`
(the `{bot_name}` pattern already formatted).  Entry ids are the pattern
source strings, the keys of `self.previous_responses`. -/
def mkPairs (bn : String) : List Entry :=
  [⟨"my name is (.*)", reMyNameIs, 1,
    .withCallback
      ["Hello %1! I'll remember your name.",
       "Nice to meet you, %1! I'll remember that.",
       "Good morning, %1! I'll make a note of your name.",
       "Good afternoon, %1! Nice to meet you.",
       "Good evening, %1! Pleased to make your acquaintance.",
       "Hi there, %1! I'll remember you."]
      storeNameCallback⟩,
   ⟨"(?:good )?morning|(?:good )?day", reMorningDay, 0,
    .templates
      ["Good morning to you too! How can I help you today?",
       "Morning! How's your day starting out?",
       "Top of the morning to you! What can I assist with?",
       "Good morning! Got any exciting plans for today?"]⟩,
   ⟨"(?:good )?afternoon", reAfternoon, 0,
    .templates
      ["Good afternoon! How's your day going so far?",
       "Afternoon! Hope you're having a productive day.",
       "Good afternoon to you! What can I help with?",
       "Hi there! Enjoying the afternoon?"]⟩,
   ⟨"(?:good )?evening", reEvening, 0,
    .templates
      ["Good evening! Winding down for the day?",
       "Evening! How was your day?",
       "Good evening to you! How can I assist you tonight?",
       "Hi there! Having a pleasant evening?"]⟩,
   ⟨"(?:what(?:'s| is) your name|who are you)\\??", reYourName, 0,
    .templates
      ["I'm \x7bbot_name\x7d, your friendly AI assistant! 🌟",
       "My name is \x7bbot_name\x7d. How can I assist you today?",
       "I go by \x7bbot_name\x7d. What can I help you with?"]⟩,
   ⟨"how are you\\??", reHowAreYou, 0,
    .templates
      ["I'm doing well, thanks for asking!",
       "All systems operational! How about you?",
       "I'm great! How can I help you today?"]⟩,
   ⟨"what(?:'s| is) my name\\??", reWhatsMyName, 0,
    .templates
      ["Your name is \x7bmemory:name\x7d.",
       "I remember you as \x7bmemory:name\x7d!"]⟩,
   ⟨"my favorite (color|food|movie|book|song|animal) is (.*)",
    reMyFavoriteIs, 2,
    .withCallback
      ["I'll remember your favorite %1 is %2!",
       "Got it! Your favorite %1 is %2."]
      storeFavoriteCallback⟩,
   ⟨"what(?:'s| is) my favorite (color|food|movie|book|song|animal)\\??",
    reWhatsMyFavorite, 1,
    .withCallback
      ["I'll tell you what I know about your favorite %1..."]
      getFavoriteCallback⟩,
   ⟨"do you remember me\\??", reRememberMe, 0,
    .templates
      ["Yes, you're \x7bmemory:name\x7d! It's good to chat with you again.",
       "Of course! You're \x7bmemory:name\x7d."]⟩,
   ⟨"(?:call|name) you (.*)", reCallYou, 1,
    .withCallback
      ["I'll respond to %1 from now on!",
       "I like the name %1! Let's continue our chat."]
      saveNameAndUpdate⟩,
   ⟨"how did you get your name\\??", reHowGotName, 0,
    .templates
      ["My creator named me \x7bbot_name\x7d! I think it's a great name, don't you?",
       "I was born with the name \x7bbot_name\x7d. Do you like it?"]⟩,
   ⟨"(?i)" ++ bn ++ ",? (.*)", reBotAddress bn, 1,
    .templates
      ["Yes, I'm listening! About '%1'...",
       "I'm here! Regarding '%1'..."]⟩,
   ⟨"(?:what(?:'s| is) the )?weather(?: like)? in ([\\w\\s]+)(?:\\?)?",
    reWeatherIn, 1,
    .withCallback ["Let me check the weather for you..."] weatherCallback⟩,
   ⟨"(?:what(?:'s| is) the )?temperature(?: like)? in ([\\w\\s]+)(?:\\?)?",
    reTemperatureIn, 1,
    .withCallback ["Checking temperature information..."] weatherCallback⟩,
   ⟨"(?:how(?:'s| is) the )?weather(?: like)? (?:in|at) ([\\w\\s]+)(?:\\?)?",
    reWeatherAt, 1,
    .withCallback ["Fetching weather data..."] weatherCallback⟩,
   ⟨"(?:help|what can you do|your abilities)\\??", reHelp, 0,
    .templates
      ["I can chat with you about various topics, remember your name and preferences, check weather, and even change my name if you'd like!",
       "I'm a chatbot that can have conversations, remember your details, check weather forecasts, and respond to basic queries.",
       "I can remember your name and preferences, tell you the weather, and chat with you about various topics!"]⟩,
   ⟨"(?:quit|exit|bye|goodbye)", reQuit, 0,
    .templates
      ["Goodbye! Have a great day!", "See you later!", "Until next time!"]⟩,
   ⟨"(.*)", reCatchAll, 1,
    .templates
      ["I'm not sure I understand. Could you rephrase that?",
       "Interesting. Tell me more about that.",
       "I'm still learning. Can you elaborate?",
       "I don't quite follow. Could you explain differently?",
       "That's a new one for me. Can you say more about it?",
       "I'm trying to understand what you mean. Could you provide more details?",
       "That's interesting! Could you tell me more?",
       "I'm not quite sure what you mean by that.",
       "Could you try explaining that in a different way?"]⟩,
   ⟨"(?:set|change|make) (?:your|the) (?:personality|tone|style) (?:to )?(formal|casual|humorous|friendly|professional)",
    rePersonality, 1,
    .withCallback
      ["I'll adjust my conversation style to be more %1. Is this better?",
       "I've changed my style to %1 mode. Let me know if you prefer something else.",
       "I'll try to be more %1 in our conversations now."]
      setPersonalityCallback⟩]

/-- A fresh `ImprovedChat` over `pairs` with bot name `bn`, user
`"default_user"`, memory `m`. -/
def mkState (bn : String) (m : Memory) : ChatState :=
  { pairsTable := mkPairs bn, previousResponses := [], memory := m,
    botName := bn, userId := "default_user", globalBotName := bn }

/-- A convenient environment: mid-afternoon, persistence succeeding. -/
def defaultEnv : Env :=
  { hour := 15, memPersistOk := true, configPersistOk := true,
    getWeather := fun _ => "Weather data" }

/-- The RNG outcome in which no optional variation fires: zero jitter, a
draw at the bottom of the cumulative range, all probability gates false. -/
def neutralRng : RngOracle :=
  { jitter := fun _ => 0, drawFrac := 0, choiceFallback := 0,
    gGreeting := false, gName := false, gFiller := false, fillerIdx := 0,
    gThinking := false, thinkIdx := 0, gEmph := false,
    emphWord := fun _ => false, emphStyle := fun _ => 0,
    gEmoji := false, emojiIdx := 0, parentChoice := 0 }

instance {α : Type} [DecidableEq α] : DecidableEq (Except Unit α) := fun a b =>
  match a, b with
  | .ok x, .ok y =>
    if h : x = y then isTrue (by rw [h]) else isFalse (by intro hc; cases hc; exact h rfl)
  | .error _, .error _ => isTrue (by rfl)
  | .ok _, .error _ => isFalse (by intro hc; cases hc)
  | .error _, .ok _ => isFalse (by intro hc; cases hc)

/-! ### Intent resolution
(`AdvancedChatbot.process_message`, `find_most_similar_intent`) -/

/-- `TransformerEmbeddings.find_most_similar_intent(text, threshold)` from
`src/build/chatbot/transformers_engine.py`, with the embedding/cosine layer
abstracted into `sims`: the cosine similarity of the input text with each
stored intent embedding, in iteration order (floats embedded as rationals).
An empty `sims` covers the unavailable-or-no-embeddings early return and a
`None` text embedding `(None, 0)`; otherwise the loop keeps the first
strictly greater score starting from `(None, -1)` and the result is
returned only when the best score reaches the threshold. -/
def findMostSimilarIntent (sims : List (String × ℚ)) (threshold : ℚ) :
    Option String × ℚ :=
  match sims with
  | [] => (none, 0)
  | _ =>
    let best := sims.foldl
      (fun acc p => if p.2 > acc.2 then (some p.1, p.2) else acc)
      ((none : Option String), (-1 : ℚ))
    if best.2 ≥ threshold then best else (none, best.2)

/-- Python truthiness of an optional intent label. -/
def intentTruthy : Option String → Bool
  | none => false
  | some s => !(s = "")

/-- Step 2 of `AdvancedChatbot.process_message`
(`src/advanced_integration.py`, lines 116–155): thresholds 0.7 and 0.5;
the transformer result is consulted first (when that component is
available; an exception in it is caught and ignored), the ML classifier
only `if not intent`; each signal is adopted only when its intent is
truthy and its confidence reaches its threshold. -/
def resolveIntent (transformerAvail mlAvail : Bool)
    (semantic : Except Unit (Option String × ℚ))
    (ml : Except Unit (Option String × ℚ)) : Option String × ℚ :=
  let semThreshold : ℚ := 7/10
  let mlThreshold : ℚ := 1/2
  let first : Option String × ℚ :=
    if transformerAvail then
      match semantic with
      | .ok (ti, ts) => if intentTruthy ti ∧ ts ≥ semThreshold then (ti, ts) else (none, 0)
      | .error _ => (none, 0)
    else (none, 0)
  if ¬ intentTruthy first.1 ∧ mlAvail then
    match ml with
    | .ok (mi, mc) =>
      if intentTruthy mi ∧ mc ≥ mlThreshold then (mi, mc) else first
    | .error _ => first
  else first

/-! ## Theorems -/

/-! ### Memory store lemmas -/

lemma alookup_alistSet_self {α : Type} (l : List (String × α)) (k : String) (v : α) :
    alookup (alistSet l k v) k = some v := by
  induction l with
  | nil => simp [alistSet, alookup]
  | cons h t ih =>
    obtain ⟨k', v'⟩ := h
    by_cases hk : k' = k <;> simp [alistSet, alookup, hk, ih]

lemma getUserInfo_storeUserInfo (persistOk : Bool) (m : Memory)
    (uid key v : String) (hu : uid ≠ "") (hk : key ≠ "") :
    getUserInfo (storeUserInfo persistOk m uid key v).1 uid key none = some v := by
  simp [storeUserInfo, getUserInfo, hu, hk, memLookup, alookup_alistSet_self]

/-- C7 (amended): for every *non-empty* `user_id` and `key` and every
value, `set(user_id, key, value)` followed by
`get(user_id, key, default=none)` returns the value (whatever the
persistence outcome); and for every user with no stored record, `get`
returns the caller's default, never raising.  (The claim's unrestricted
quantification fails: `store_user_info` rejects a falsy `user_id`/`key`
without storing, see the counterexample.) -/
theorem memory_roundtrip_valid_ids (persistOk : Bool) (m : Memory)
    (uid key v : String) (hu : uid ≠ "") (hk : key ≠ "") :
    getUserInfo (storeUserInfo persistOk m uid key v).1 uid key none = some v ∧
    ∀ (m' : Memory) (uid' key' : String) (d : Option String),
      memLookup m' uid' = none → getUserInfo m' uid' key' d = d := by
  refine ⟨getUserInfo_storeUserInfo persistOk m uid key v hu hk, ?_⟩
  intro m' uid' key' d h
  simp only [getUserInfo, h]
  split_ifs <;> rfl

/-- C7 witness: the round trip at concrete non-empty identifiers. -/
theorem memory_roundtrip_valid_ids_witness :
    ("u1" : String) ≠ "" ∧ ("name" : String) ≠ "" ∧
    getUserInfo (storeUserInfo true [] "u1" "name" "Ada").1 "u1" "name" none =
      some "Ada" :=
  ⟨by decide, by decide,
   (memory_roundtrip_valid_ids true [] "u1" "name" "Ada" (by decide) (by decide)).1⟩

/-- C7 counterexample: with the empty `user_id` — an instance of the
claim's "for every user_id" — `set` rejects the write (returning `False`)
and the following `get` returns the default, not the stored value. -/
theorem memory_roundtrip_fails_empty_uid :
    getUserInfo (storeUserInfo true [] "" "name" "Ada").1 "" "name" none ≠
      some "Ada" ∧
    (storeUserInfo true [] "" "name" "Ada").2 = false := by
  constructor <;> decide

/-- C10: when persistence fails, `store_user_info` still returns `False`
*after* having written the in-memory record, so a subsequent
`get_user_info` observes the new value: the store is not rolled back. -/
theorem store_not_rolled_back_on_persist_failure (m : Memory)
    (uid key v : String) (hu : uid ≠ "") (hk : key ≠ "") :
    (storeUserInfo false m uid key v).2 = false ∧
    getUserInfo (storeUserInfo false m uid key v).1 uid key none = some v := by
  refine ⟨?_, getUserInfo_storeUserInfo false m uid key v hu hk⟩
  simp [storeUserInfo, hu, hk]

/-- C10 witness: the non-atomic store observed at concrete inputs. -/
theorem store_not_rolled_back_witness :
    (storeUserInfo false [] "u2" "color" "blue").2 = false ∧
    getUserInfo (storeUserInfo false [] "u2" "color" "blue").1 "u2" "color" none =
      some "blue" :=
  store_not_rolled_back_on_persist_failure [] "u2" "color" "blue"
    (by decide) (by decide)

/-! ### Intent precedence lemmas -/

lemma foldl_best_shape (sims : List (String × ℚ)) (init : Option String × ℚ) :
    sims.foldl (fun acc p => if p.2 > acc.2 then (some p.1, p.2) else acc) init
        = init ∨
    ∃ p ∈ sims,
      sims.foldl (fun acc p => if p.2 > acc.2 then (some p.1, p.2) else acc) init
        = (some p.1, p.2) := by
  induction sims generalizing init with
  | nil => left; rfl
  | cons h t ih =>
    simp only [List.foldl_cons]
    by_cases hc : h.2 > init.2
    · rw [if_pos hc]
      rcases ih (some h.1, h.2) with h1 | ⟨p, hp, h2⟩
      · right
        exact ⟨h, List.mem_cons_self h t, by rw [h1]⟩
      · right
        exact ⟨p, List.mem_cons_of_mem h hp, h2⟩
    · rw [if_neg hc]
      rcases ih init with h1 | ⟨p, hp, h2⟩
      · left; exact h1
      · right
        exact ⟨p, List.mem_cons_of_mem h hp, h2⟩

/-- C2: when the transformer is available and the semantic matcher's score
clears the 0.7 threshold, `process_message` adopts the semantic intent and
confidence, whatever the ML classifier would have answered — the
`if not intent` guard never consults it.  `sims` are the stored intent
embeddings' similarities (their names are non-empty, as
`compute_all_intent_embeddings` skips falsy intents). -/
theorem semantic_priority_over_classifier (sims : List (String × ℚ))
    (hnames : ∀ p ∈ sims, p.1 ≠ "") (mlAvail : Bool)
    (ml : Except Unit (Option String × ℚ))
    (hscore : (findMostSimilarIntent sims (7/10)).2 ≥ 7/10) :
    resolveIntent true mlAvail (.ok (findMostSimilarIntent sims (7/10))) ml =
      findMostSimilarIntent sims (7/10) ∧
    ∃ i, (findMostSimilarIntent sims (7/10)).1 = some i := by
  rcases sims with _ | ⟨q, t⟩
  · exfalso
    norm_num [findMostSimilarIntent] at hscore
  · have hFeq : findMostSimilarIntent (q :: t) (7/10) =
        (if ((q :: t).foldl (fun acc p => if p.2 > acc.2 then (some p.1, p.2) else acc)
              ((none : Option String), (-1 : ℚ))).2 ≥ 7/10 then
          (q :: t).foldl (fun acc p => if p.2 > acc.2 then (some p.1, p.2) else acc)
            ((none : Option String), (-1 : ℚ))
        else
          (none,
           ((q :: t).foldl (fun acc p => if p.2 > acc.2 then (some p.1, p.2) else acc)
              ((none : Option String), (-1 : ℚ))).2)) := rfl
    have hB2 : ((q :: t).foldl (fun acc p => if p.2 > acc.2 then (some p.1, p.2) else acc)
        ((none : Option String), (-1 : ℚ))).2 ≥ 7/10 := by
      by_contra hlt
      rw [hFeq, if_neg hlt] at hscore
      exact hlt hscore
    have hF : findMostSimilarIntent (q :: t) (7/10) =
        (q :: t).foldl (fun acc p => if p.2 > acc.2 then (some p.1, p.2) else acc)
          ((none : Option String), (-1 : ℚ)) := by
      rw [hFeq, if_pos hB2]
    rcases foldl_best_shape (q :: t) ((none : Option String), (-1 : ℚ)) with hsh | ⟨p, hp, hsh⟩
    · exfalso
      rw [hsh] at hB2
      norm_num at hB2
    · have hB : findMostSimilarIntent (q :: t) (7/10) = (some p.1, p.2) := by
        rw [hF, hsh]
      have hpne : p.1 ≠ "" := hnames p hp
      have hsc : p.2 ≥ 7/10 := by rw [hsh] at hB2; exact hB2
      have h1 : intentTruthy (some p.1) = true := by simp [intentTruthy, hpne]
      refine ⟨?_, ⟨p.1, by rw [hB]⟩⟩
      rw [hB]
      simp [resolveIntent, h1, hsc]

/-- C2 witness: a concrete similarity table where the semantic score 0.8
clears the threshold and shadows a confident classifier answer. -/
theorem semantic_priority_witness :
    resolveIntent true true (.ok (findMostSimilarIntent [("weather", 4/5)] (7/10)))
        (.ok (some "greeting", 1)) =
      findMostSimilarIntent [("weather", 4/5)] (7/10) ∧
    findMostSimilarIntent [("weather", 4/5)] (7/10) = (some "weather", 4/5) :=
  ⟨(semantic_priority_over_classifier [("weather", 4/5)] (by simp) true
      (.ok (some "greeting", 1)) (by norm_num [findMostSimilarIntent])).1,
   by norm_num [findMostSimilarIntent]⟩


/-! ### The weighted selector: C8, C9 -/

/-- C9: the claim says weighted selection never raises — any exception in
weighting or variation is supposed to fall back to the first remaining
candidate.  The code has no such handler and, worse, *always* raises on a
multi-candidate pool: for every environment, every RNG outcome, every
memory, user id and previous response, `custom_response_selector` on a
pool of two or more candidates raises `NameError` at the bare-name call to
the class-body `add_response_variation` (line 533) and propagates it to
the caller; only the empty pool and the singleton pool return (both before
the failing call, with no weighting involved).  Nothing ever returns "the
first remaining candidate". -/
theorem selection_raises_not_falls_back (env : Env) (rng : RngOracle)
    (mem : Memory) (uid r1 r2 : String) (t : List String)
    (previous : Option String) :
    customResponseSelector env rng mem uid (r1 :: r2 :: t) previous = .error () ∧
    customResponseSelector env rng mem uid [] previous =
      .ok "I'm not sure what to say." ∧
    customResponseSelector env rng mem uid [r1] previous = .ok r1 :=
  ⟨rfl, rfl, rfl⟩

/-- C8: at the claim's own premise — a pool of two distinct candidates one
of which equals the previous response — weighted selection returns nothing
at all: the draw of lines 481–530 is computed and discarded, and the
selector raises `NameError` (here at the neutral RNG outcome; the raise is
independent of the RNG).  So no "returned response drawn from the
remaining candidates" exists. -/
theorem selector_never_returns_on_claim_premise :
    customResponseSelector defaultEnv neutralRng [] "default_user"
        ["hi", "Well, hi"] (some "Well, hi") = .error () := rfl

/-! ### The engine: C1, C3, C4 -/

/-- C1 (code-bug evaluation): the claim promises a non-empty string from
`respond` for every input, but the committed module does not even parse
(the stray `pairs = [` at lines 825–826), so `respond` is never available.
This theorem evaluates the embedding of the wrapper-repaired module at
`"call you Bob"`: the name-change entry is matched by the custom loop but
skipped via `NameError`, the NLTK parent anchored-matches the same entry
and crashes on its `(templates, callback)` tuple, and the outer handler
returns the fixed apology — the global bot name is never changed.  (The
apology *is* a non-empty string; the pattern table and its callbacks
contribute nothing to that.) -/
theorem respond_name_change_yields_fallback_apology :
    (respond defaultEnv neutralRng (mkState "Wicked" []) "call you Bob").1 =
      some (.pstr "I'm having trouble understanding right now. Could you try rephrasing that?") ∧
    (respond defaultEnv neutralRng (mkState "Wicked" []) "call you Bob").2.globalBotName =
      "Wicked" := by
  constructor <;> with_unfolding_all decide

/-- C3 (code-bug evaluation): the claimed callback short-circuit is dead
code — no callback is ever invoked by `respond`.  At
`"weather in Paris"`, whose entry carries `weather_callback` (a callback
that returns a non-empty string), the matched entry is skipped via
`NameError` at the bare-name selector call, the NLTK parent crashes on the
`(templates, callback)` tuple, and the response is the outer-handler
apology — not the callback's return value (`"Weather data"` here). -/
theorem respond_weather_callback_never_runs :
    (respond defaultEnv neutralRng (mkState "Wicked" []) "weather in Paris").1 =
      some (.pstr "I'm having trouble understanding right now. Could you try rephrasing that?") ∧
    (respond defaultEnv neutralRng (mkState "Wicked" []) "weather in Paris").1 ≠
      some (.pstr (defaultEnv.getWeather "Paris")) := by
  constructor <;> with_unfolding_all decide

/-- C4 (code-bug evaluation): there is no same-turn write for a template
to observe, because the matched entry's callback never executes.  At
`"my name is Ada"` on an empty store, the entry carrying
`store_name_callback` is skipped via `NameError` before the callback line,
the memory stays empty after the turn, and the response is the
outer-handler apology (from the NLTK parent's tuple crash), which does not
contain `"Ada"`. -/
theorem respond_store_name_callback_never_runs :
    (respond defaultEnv neutralRng (mkState "Wicked" []) "my name is Ada").1 =
      some (.pstr "I'm having trouble understanding right now. Could you try rephrasing that?") ∧
    (respond defaultEnv neutralRng (mkState "Wicked" []) "my name is Ada").2.memory = [] := by
  constructor <;> with_unfolding_all decide

/-! ### The pattern table: C5, C6 -/

/-- C5 (code-bug evaluation): the configured `pairs` table does *not* end
with the catch-all — the personality-style entry sits after `"(.*)"`
(index 19 of 20, catch-all at 18), so on `"set your personality to formal"`
a generic fallback is returned and no personality preference is ever
stored: the trailing entry is unreachable.  (Entries are indeed tried
strictly in table order with first match winning — in the NLTK parent that
actually answers, just as in the custom loop — which is what makes the
trailing entry dead.) -/
theorem catch_all_not_last :
    (mkPairs "Wicked").length = 20 ∧
    ((mkPairs "Wicked").get? 18).map (·.pid) = some "(.*)" ∧
    ((mkPairs "Wicked").get? 19).map (·.pid) =
      some "(?:set|change|make) (?:your|the) (?:personality|tone|style) (?:to )?(formal|casual|humorous|friendly|professional)" ∧
    (respond defaultEnv neutralRng (mkState "Wicked" [])
        "set your personality to formal").1 =
      some (.pstr "I'm not sure I understand. Could you rephrase that?") ∧
    getUserInfo
      (respond defaultEnv neutralRng (mkState "Wicked" [])
          "set your personality to formal").2.memory
      "default_user" "personality_preference" none = none := by
  refine ⟨by decide, by decide, by decide, ?_, ?_⟩ <;> with_unfolding_all decide

/-- C6 (code-bug evaluation): the pre-formatting pass of `respond`
*overwrites the stored template* with the substituted text.  First call of
`"what is my name?"` with no stored name: the template
`"Your name is {memory:name}."` is baked to `"Your name is unknown."`
inside the stored table (third conjunct), and that is the answer.  After
storing `name = "Ada"` between the calls, the second call still answers
from the baked templates — `"Your name is unknown."` again — and the
response does not contain `"Ada"`, refuting per-call resolution against
the current store. -/
theorem stale_memory_template_two_calls :
    (let st0 := mkState "Wicked" []
     let r1 := respond defaultEnv neutralRng st0 "what is my name?"
     let mem2 := (storeUserInfo true r1.2.memory "default_user" "name" "Ada").1
     let r2 := respond defaultEnv neutralRng { r1.2 with memory := mem2 }
       "what is my name?"
     r1.1 = some (.pstr "Your name is unknown.") ∧
     ((r1.2.pairsTable.get? 6).map fun e => entryTemplates e.resp) =
       some ["Your name is unknown.", "I remember you as unknown!"] ∧
     getUserInfo mem2 "default_user" "name" none = some "Ada" ∧
     r2.1 = some (.pstr "Your name is unknown.") ∧
     containsSub "Your name is unknown." "Ada" = false) := by
  with_unfolding_all decide
